import Mathlib

/-!
The amdxdna driver core: device table, probe, client registry, power hooks.

A shallow embedding of

* `src/driver/amdxdna/amdxdna_drv.c` (device-id table, open / flush / close,
  probe, suspend / resume hooks),
* `src/driver/amdxdna/npu1_regs.c` (NPU1 register and aperture map),
* `src/shim/kmq/hwctx.cpp` (construction of the compute-unit configuration
  request).

Calls into code outside these files (IOMMU, DRM core, sysfs, the per-generation
ops, the hardware-context helpers) are recorded as entries of a call trace;
their return values are inputs of the model.
-/

set_option autoImplicit false

namespace Amdxdna

/-! ## Kernel scalar conventions -/

/-- Linux errno value of ENOMEM. -/
def ENOMEM : Int := 12

/-- Linux errno value of ENODEV. -/
def ENODEV : Int := 19

/-- Linux errno value of EOPNOTSUPP. -/
def EOPNOTSUPP : Int := 95

/-- Largest errno an error pointer can carry. -/
def MAX_ERRNO : Nat := 4095

/-- Number of values of a 64-bit pointer. -/
def PTR_MOD : Nat := 18446744073709551616

/-- Kernel IS_ERR: the pointer lies in the top MAX_ERRNO values of the
address space. Pointers are naturals taken modulo 2^64. -/
def IS_ERR (p : Nat) : Bool := decide (PTR_MOD - MAX_ERRNO ≤ p % PTR_MOD)

/-- Kernel PTR_ERR: the pointer reinterpreted as a signed long. -/
def PTR_ERR (p : Nat) : Int :=
  if p % PTR_MOD < 9223372036854775808 then ((p % PTR_MOD : Nat) : Int)
  else ((p % PTR_MOD : Nat) : Int) - (PTR_MOD : Int)

/-- Conversion of a long to a 32-bit int, as done by the assignment to ret. -/
def to_int (x : Int) : Int :=
  if x % 4294967296 < 2147483648 then x % 4294967296 else x % 4294967296 - 4294967296

/-- The value IOMMU_PASID_INVALID of the kernel, (-1U). -/
def IOMMU_PASID_INVALID : Nat := 4294967295

/-! ## Device-id table (amdxdna_drv.c) -/

/-- One row of amdxdna_ids; dev_info is none for a NULL pointer. -/
structure amdxdna_device_id (α : Type) where
  device : Nat
  revision : Nat
  dev_info : Option α

/-- The identity of a PCI function as read by the lookup. -/
structure pci_dev where
  device : Nat
  revision : Nat
deriving DecidableEq, Repr

/-- The table amdxdna_ids, over the three generation descriptors it points
to; the last row is the zero terminator. -/
def amdxdna_ids {α : Type} (dev_npu1_info dev_npu2_info dev_npu4_info : α) :
    List (amdxdna_device_id α) :=
  [ { device := 0x1502, revision := 0x0, dev_info := some dev_npu1_info },
    { device := 0x17f0, revision := 0x0, dev_info := some dev_npu2_info },
    { device := 0x17f0, revision := 0x10, dev_info := some dev_npu4_info },
    { device := 0, revision := 0, dev_info := none } ]

/-- The for loop of amdxdna_get_dev_info over the rows still to visit. -/
def get_dev_info_loop {α : Type} (pdev : pci_dev) :
    List (amdxdna_device_id α) → Option α
  | [] => none
  | e :: rest =>
    if pdev.device = e.device ∧ pdev.revision = e.revision then e.dev_info
    else get_dev_info_loop pdev rest

/-- The lookup amdxdna_get_dev_info: all ARRAY_SIZE rows are visited, the
terminator included. -/
def amdxdna_get_dev_info {α : Type} (ids : List (amdxdna_device_id α))
    (pdev : pci_dev) : Option α :=
  get_dev_info_loop pdev ids

/-! ## NPU1 register map (npu1_regs.c) -/

def MPNPU_PUB_SEC_INTR : Nat := 0x3010090
def MPNPU_PUB_PWRMGMT_INTR : Nat := 0x3010094
def MPNPU_PUB_SCRATCH2 : Nat := 0x30100A0
def MPNPU_PUB_SCRATCH3 : Nat := 0x30100A4
def MPNPU_PUB_SCRATCH4 : Nat := 0x30100A8
def MPNPU_PUB_SCRATCH5 : Nat := 0x30100AC
def MPNPU_PUB_SCRATCH6 : Nat := 0x30100B0
def MPNPU_PUB_SCRATCH7 : Nat := 0x30100B4
def MPNPU_PUB_SCRATCH9 : Nat := 0x30100BC

def MPNPU_SRAM_X2I_MAILBOX_0 : Nat := 0x30A0000
def MPNPU_SRAM_X2I_MAILBOX_1 : Nat := 0x30A2000
def MPNPU_SRAM_I2X_MAILBOX_15 : Nat := 0x30BF000

def MPNPU_APERTURE0_BASE : Nat := 0x3000000
def MPNPU_APERTURE1_BASE : Nat := 0x3080000
def MPNPU_APERTURE2_BASE : Nat := 0x30C0000

def NPU1_REG_BAR_INDEX : Nat := 0
def NPU1_MBOX_BAR_INDEX : Nat := 4
def NPU1_PSP_BAR_INDEX : Nat := 0
def NPU1_SMU_BAR_INDEX : Nat := 0
def NPU1_SRAM_BAR_INDEX : Nat := 2

def NPU1_REG_BAR_BASE : Nat := MPNPU_APERTURE0_BASE
def NPU1_MBOX_BAR_BASE : Nat := MPNPU_APERTURE2_BASE
def NPU1_PSP_BAR_BASE : Nat := MPNPU_APERTURE0_BASE
def NPU1_SMU_BAR_BASE : Nat := MPNPU_APERTURE0_BASE
def NPU1_SRAM_BAR_BASE : Nat := MPNPU_APERTURE1_BASE

def NPU1_RT_CFG_TYPE_PDI_LOAD : Nat := 2
def NPU1_RT_CFG_VAL_PDI_LOAD_APP : Nat := 1

/-- The pair of names a window prefix expands to: its BAR index and the
device address its BAR starts at. -/
structure bar_window where
  bar_index : Nat
  bar_base : Nat
deriving DecidableEq, Repr

/-- Window prefix NPU1_PSP. -/
def NPU1_PSP : bar_window := { bar_index := NPU1_PSP_BAR_INDEX, bar_base := NPU1_PSP_BAR_BASE }

/-- Window prefix NPU1_SMU. -/
def NPU1_SMU : bar_window := { bar_index := NPU1_SMU_BAR_INDEX, bar_base := NPU1_SMU_BAR_BASE }

/-- Window prefix NPU1_SRAM. -/
def NPU1_SRAM : bar_window := { bar_index := NPU1_SRAM_BAR_INDEX, bar_base := NPU1_SRAM_BAR_BASE }

/-- One entry of a register table: the BAR and the offset inside it. -/
structure bar_off_pair where
  bar_idx : Nat
  offset : Int
deriving DecidableEq, Repr

/-- Modelled from the spec: the macro DEFINE_BAR_OFFSET is declared in
npu1_pci.h, which is not among the sources. Following the register map
contract (the byte offset of a register within its logical window) an entry
holds the BAR index of the window and the register address minus the window
base. The difference is taken in the integers, so that an address below the
base would show as a negative offset. -/
def DEFINE_BAR_OFFSET (bar : bar_window) (reg_addr : Nat) : bar_off_pair :=
  { bar_idx := bar.bar_index, offset := (reg_addr : Int) - (bar.bar_base : Int) }

/-- Index names of the SRAM table. -/
inductive sram_reg_idx where
  | MBOX_CHANN_OFF
  | FW_ALIVE_OFF
deriving DecidableEq, Repr

/-- Index names of the PSP table. -/
inductive psp_reg_idx where
  | PSP_CMD_REG
  | PSP_ARG0_REG
  | PSP_ARG1_REG
  | PSP_ARG2_REG
  | PSP_INTR_REG
  | PSP_STATUS_REG
  | PSP_RESP_REG
deriving DecidableEq, Repr

/-- Index names of the SMU table. -/
inductive smu_reg_idx where
  | SMU_CMD_REG
  | SMU_ARG_REG
  | SMU_INTR_REG
  | SMU_RESP_REG
  | SMU_OUT_REG
deriving DecidableEq, Repr

/-- Register address written in the initializer of each SRAM entry. -/
def npu1_sram_addr : sram_reg_idx → Nat
  | .MBOX_CHANN_OFF => MPNPU_SRAM_X2I_MAILBOX_0
  | .FW_ALIVE_OFF => MPNPU_SRAM_I2X_MAILBOX_15

/-- Register address written in the initializer of each PSP entry. -/
def npu1_psp_addr : psp_reg_idx → Nat
  | .PSP_CMD_REG => MPNPU_PUB_SCRATCH2
  | .PSP_ARG0_REG => MPNPU_PUB_SCRATCH3
  | .PSP_ARG1_REG => MPNPU_PUB_SCRATCH4
  | .PSP_ARG2_REG => MPNPU_PUB_SCRATCH9
  | .PSP_INTR_REG => MPNPU_PUB_SEC_INTR
  | .PSP_STATUS_REG => MPNPU_PUB_SCRATCH2
  | .PSP_RESP_REG => MPNPU_PUB_SCRATCH3

/-- Register address written in the initializer of each SMU entry. -/
def npu1_smu_addr : smu_reg_idx → Nat
  | .SMU_CMD_REG => MPNPU_PUB_SCRATCH5
  | .SMU_ARG_REG => MPNPU_PUB_SCRATCH7
  | .SMU_INTR_REG => MPNPU_PUB_PWRMGMT_INTR
  | .SMU_RESP_REG => MPNPU_PUB_SCRATCH6
  | .SMU_OUT_REG => MPNPU_PUB_SCRATCH7

/-- The private NPU1 data npu_dev_priv. -/
structure npu_dev_priv where
  fw_path : String
  protocol_major : Nat
  protocol_minor : Nat
  rt_config : Nat × Nat
  mbox_dev_addr : Nat
  mbox_size : Nat
  sram_dev_addr : Nat
  sram_offs : sram_reg_idx → bar_off_pair
  psp_regs_off : psp_reg_idx → bar_off_pair
  smu_regs_off : smu_reg_idx → bar_off_pair

/-- The constant npu1_dev_priv. -/
def npu1_dev_priv : npu_dev_priv :=
  { fw_path := "amdnpu/1502_00/npu.sbin"
    protocol_major := 0x5
    protocol_minor := 0x1
    rt_config := (NPU1_RT_CFG_TYPE_PDI_LOAD, NPU1_RT_CFG_VAL_PDI_LOAD_APP)
    mbox_dev_addr := NPU1_MBOX_BAR_BASE
    mbox_size := 0
    sram_dev_addr := NPU1_SRAM_BAR_BASE
    sram_offs := fun r => DEFINE_BAR_OFFSET NPU1_SRAM (npu1_sram_addr r)
    psp_regs_off := fun r => DEFINE_BAR_OFFSET NPU1_PSP (npu1_psp_addr r)
    smu_regs_off := fun r => DEFINE_BAR_OFFSET NPU1_SMU (npu1_smu_addr r) }

/-! ## Driver objects (amdxdna_drv.c) -/

/-- A hardware context of a client. The field seq is a ghost: the position of
the context in the device-wide order of creation. -/
structure amdxdna_hwctx where
  id : Nat
  seq : Nat
deriving DecidableEq, Repr

/-- The per-connection object amdxdna_client. The field addr is the address
kzalloc returned, which is the identity of the list node; sva and pasid are
zero until set, as kzalloc leaves them. -/
structure amdxdna_client where
  addr : Nat
  pid : Nat
  sva : Nat
  pasid : Nat
  hwctx_idr : List amdxdna_hwctx
  dev_heap : Option Nat
deriving DecidableEq, Repr

/-- The per-generation ops table. A function pointer that may be NULL is an
option (or a flag when its result is not used); the value is what the op
returns when called. -/
structure amdxdna_dev_ops where
  init : Option Int
  fini : Bool
  suspend : Bool
  resume : Option Int
  debugfs : Bool
deriving DecidableEq, Repr

/-- The part of amdxdna_dev_info the generic driver reads. -/
structure amdxdna_dev_info where
  vbnv : String
  ops : amdxdna_dev_ops
deriving DecidableEq, Repr

/-- The device object amdxdna_dev. -/
structure amdxdna_dev where
  dev_info : amdxdna_dev_info
  client_list : List amdxdna_client
deriving DecidableEq, Repr

/-- The constant dev_npu1_info of npu1_regs.c, over its ops table, which is
defined elsewhere. -/
def dev_npu1_info (npu1_ops : amdxdna_dev_ops) : amdxdna_dev_info :=
  { vbnv := "RyzenAI-npu1", ops := npu1_ops }

/-- Calls the driver makes into code outside amdxdna_drv.c, in the order it
makes them. Results of a call are shown with it. -/
inductive Call where
  | iommu_sva_bind_device (ret : Nat)
  | iommu_sva_get_pasid (sva : Nat) (ret : Nat)
  | iommu_sva_unbind_device (sva : Nat)
  | kfree (addr : Nat)
  | amdxdna_hwctx_remove_all (client : amdxdna_client)
  | amdxdna_hwctx_suspend (client : amdxdna_client)
  | amdxdna_hwctx_resume (client : amdxdna_client)
  | ops_suspend
  | ops_resume (ret : Int)
  | ops_init (ret : Int)
  | ops_fini
  | ops_debugfs
  | amdxdna_sysfs_init (ret : Int)
  | amdxdna_sysfs_fini
  | drm_dev_register (ret : Int)
deriving DecidableEq, Repr

/-- The kernel list walk list_for_each_entry: the body runs on each entry
from the head on. -/
def list_for_each_entry {α σ : Type} (l : List α) (body : α → σ → σ) (s : σ) : σ :=
  l.foldl (fun acc x => body x acc) s

/-- The kernel list_add_tail: the node becomes the last entry. -/
def list_add_tail (client : amdxdna_client) (l : List amdxdna_client) :
    List amdxdna_client :=
  l ++ [client]

/-- The kernel list_del: the node at the address of the client is unlinked. -/
def list_del (client : amdxdna_client) (l : List amdxdna_client) :
    List amdxdna_client :=
  l.eraseP (fun x => x.addr == client.addr)

/-! ### open / flush / close -/

/-- What the platform answers during amdxdna_drm_open. -/
structure open_env where
  kzalloc : Option Nat
  pid_nr : Nat
  iommu_sva_bind_device : Nat
  iommu_sva_get_pasid : Nat
deriving DecidableEq, Repr

/-- Outcome of amdxdna_drm_open: return value, device afterwards, the
value of filp->driver_priv and the calls made. -/
structure open_result where
  ret : Int
  xdna : amdxdna_dev
  driver_priv : Option amdxdna_client
  trace : List Call
deriving DecidableEq, Repr

/-- The tail of amdxdna_drm_open from the label skip_sva_bind on. -/
def open_register (xdna : amdxdna_dev) (client : amdxdna_client) (tr : List Call) :
    open_result :=
  let client := { client with hwctx_idr := [], dev_heap := none }
  { ret := 0
    xdna := { xdna with client_list := list_add_tail client xdna.client_list }
    driver_priv := some client
    trace := tr }

/-- The function amdxdna_drm_open. The flag skip_sva is true only in a build
with AMDXDNA_DEVEL whose iommu_mode is not AMDXDNA_IOMMU_PASID; it is false in
a regular build. -/
def amdxdna_drm_open (skip_sva : Bool) (env : open_env) (xdna : amdxdna_dev) :
    open_result :=
  match env.kzalloc with
  | none => { ret := -ENOMEM, xdna := xdna, driver_priv := none, trace := [] }
  | some addr =>
    let client : amdxdna_client :=
      { addr := addr, pid := env.pid_nr, sva := 0, pasid := 0, hwctx_idr := [],
        dev_heap := some 0 }
    if skip_sva then open_register xdna client []
    else
      let client := { client with sva := env.iommu_sva_bind_device }
      let tr := [Call.iommu_sva_bind_device client.sva]
      if IS_ERR client.sva then
        { ret := to_int (PTR_ERR client.sva), xdna := xdna, driver_priv := none,
          trace := tr ++ [Call.kfree addr] }
      else
        let client := { client with pasid := env.iommu_sva_get_pasid }
        let tr := tr ++ [Call.iommu_sva_get_pasid client.sva client.pasid]
        if client.pasid = IOMMU_PASID_INVALID then
          { ret := -ENODEV, xdna := xdna, driver_priv := none,
            trace := tr ++ [Call.iommu_sva_unbind_device client.sva, Call.kfree addr] }
        else open_register xdna client tr

/-- Modelled from the spec: amdxdna_hwctx_remove_all is defined outside the
sources at hand. Closing a client force-destroys every hardware context it
owns, so the client is left with no context. -/
def amdxdna_hwctx_remove_all (client : amdxdna_client) : amdxdna_client :=
  { client with hwctx_idr := [] }

/-- Outcome of a step of the close path. -/
structure close_result where
  ret : Int
  xdna : amdxdna_dev
  client : amdxdna_client
  trace : List Call
deriving DecidableEq, Repr

/-- The function amdxdna_flush on the client stored in the file. -/
def amdxdna_flush (xdna : amdxdna_dev) (client : amdxdna_client) : close_result :=
  let xdna1 := { xdna with client_list := list_del client xdna.client_list }
  let tr := [Call.amdxdna_hwctx_remove_all client]
  let client1 := amdxdna_hwctx_remove_all client
  { ret := 0, xdna := xdna1, client := client1, trace := tr }

/-- The function amdxdna_drm_close; skip_sva as in amdxdna_drm_open. It
returns nothing, ret is 0. The calls idr_destroy, cleanup_srcu_struct and
mutex_destroy release bookkeeping of the client only and destroy no context,
so the client is passed on as it is. -/
def amdxdna_drm_close (skip_sva : Bool) (xdna : amdxdna_dev) (client : amdxdna_client) :
    close_result :=
  let tr := if skip_sva then [] else [Call.iommu_sva_unbind_device client.sva]
  { ret := 0, xdna := xdna, client := client, trace := tr ++ [Call.kfree client.addr] }

/-- The close path of a file: amdxdna_flush, then amdxdna_drm_close on what
flush left. -/
def close_path (skip_sva : Bool) (xdna : amdxdna_dev) (client : amdxdna_client) :
    close_result :=
  let f := amdxdna_flush xdna client
  let c := amdxdna_drm_close skip_sva f.xdna f.client
  { c with trace := f.trace ++ c.trace }

/-- SVA handles bound and not yet unbound after a sequence of calls, starting
from the handles in live. A bind that returned an error pointer binds
nothing. -/
def sva_live : List Call → List Nat → List Nat
  | [], live => live
  | Call.iommu_sva_bind_device p :: rest, live =>
    sva_live rest (if IS_ERR p then live else live ++ [p])
  | Call.iommu_sva_unbind_device p :: rest, live => sva_live rest (live.erase p)
  | _ :: rest, live => sva_live rest live

/-- Contexts of the client at address addr that are live at each unbind of
the handle sva along a trace, starting from the contexts in live: the list
of these snapshots, one per unbind. -/
def live_at_unbind (addr sva : Nat) :
    List Call → List amdxdna_hwctx → List (List amdxdna_hwctx)
  | [], _ => []
  | Call.amdxdna_hwctx_remove_all c :: rest, live =>
    live_at_unbind addr sva rest
      (if c.addr = addr then (amdxdna_hwctx_remove_all c).hwctx_idr else live)
  | Call.iommu_sva_unbind_device p :: rest, live =>
    if p = sva then live :: live_at_unbind addr sva rest live
    else live_at_unbind addr sva rest live
  | _ :: rest, live => live_at_unbind addr sva rest live

/-! ### probe -/

/-- What the kernel answers during amdxdna_probe. -/
structure probe_env where
  devm_drm_dev_alloc : Nat
  amdxdna_sysfs_init : Int
  drm_dev_register : Int
deriving DecidableEq, Repr

/-- Outcome of amdxdna_probe: return value, the driver data set on the PCI
device (none when pci_set_drvdata was not reached) and the calls made. -/
structure probe_result where
  ret : Int
  drvdata : Option amdxdna_dev
  trace : List Call
deriving DecidableEq, Repr

/-- The function amdxdna_probe, over the device-id table it looks up. -/
def amdxdna_probe (ids : List (amdxdna_device_id amdxdna_dev_info)) (env : probe_env)
    (pdev : pci_dev) : probe_result :=
  if IS_ERR env.devm_drm_dev_alloc then
    { ret := to_int (PTR_ERR env.devm_drm_dev_alloc), drvdata := none, trace := [] }
  else
    match amdxdna_get_dev_info ids pdev with
    | none => { ret := -ENODEV, drvdata := none, trace := [] }
    | some info =>
      let xdna : amdxdna_dev := { dev_info := info, client_list := [] }
      match info.ops.init, info.ops.fini with
      | some init_ret, true =>
        let tr := [Call.ops_init init_ret]
        if init_ret ≠ 0 then { ret := init_ret, drvdata := some xdna, trace := tr }
        else
          let ret := env.amdxdna_sysfs_init
          let tr := tr ++ [Call.amdxdna_sysfs_init ret]
          if ret ≠ 0 then
            { ret := ret, drvdata := some xdna, trace := tr ++ [Call.ops_fini] }
          else
            let ret := env.drm_dev_register
            let tr := tr ++ [Call.drm_dev_register ret]
            if ret ≠ 0 then
              { ret := ret, drvdata := some xdna,
                trace := tr ++ [Call.amdxdna_sysfs_fini, Call.ops_fini] }
            else
              { ret := 0, drvdata := some xdna,
                trace := tr ++ (if info.ops.debugfs then [Call.ops_debugfs] else []) }
      | _, _ => { ret := -EOPNOTSUPP, drvdata := some xdna, trace := [] }

/-- The steps of a probe in the order they run, each with the error it
fails with (none when it succeeds or depends on a descriptor that was not
found): allocation of the DRM device, descriptor lookup, presence of the init
and fini ops, hardware init, sysfs init, DRM registration. -/
def probe_steps (ids : List (amdxdna_device_id amdxdna_dev_info)) (env : probe_env)
    (pdev : pci_dev) : List (Option Int) :=
  let info := amdxdna_get_dev_info ids pdev
  [ if IS_ERR env.devm_drm_dev_alloc then some (to_int (PTR_ERR env.devm_drm_dev_alloc))
    else none,
    if info.isNone then some (-ENODEV) else none,
    info.bind (fun d => if d.ops.init.isNone || !d.ops.fini then some (-EOPNOTSUPP) else none),
    info.bind (fun d => d.ops.init.bind (fun r => if r ≠ 0 then some r else none)),
    if env.amdxdna_sysfs_init ≠ 0 then some env.amdxdna_sysfs_init else none,
    if env.drm_dev_register ≠ 0 then some env.drm_dev_register else none ]

/-- The error of the first failing step, none when every step succeeds. -/
def first_failure : List (Option Int) → Option Int
  | [] => none
  | some e :: _ => some e
  | none :: rest => first_failure rest

/-- Whether the trace shows a successful registration with DRM. -/
def drm_registered (tr : List Call) : Bool := tr.contains (Call.drm_dev_register 0)

/-! ### suspend / resume hooks -/

/-- Outcome of a power hook. -/
structure pm_result where
  ret : Int
  xdna : amdxdna_dev
  trace : List Call
deriving DecidableEq, Repr

/-- The function amdxdna_pmops_suspend. -/
def amdxdna_pmops_suspend (xdna : amdxdna_dev) : pm_result :=
  let tr : List Call := []
  let tr := list_for_each_entry xdna.client_list
    (fun client t => t ++ [Call.amdxdna_hwctx_suspend client]) tr
  let tr := if xdna.dev_info.ops.suspend then tr ++ [Call.ops_suspend] else tr
  { ret := 0, xdna := xdna, trace := tr }

/-- The second half of amdxdna_pmops_resume: the walk over the clients. -/
def pmops_resume_clients (xdna : amdxdna_dev) (tr : List Call) : pm_result :=
  let tr := list_for_each_entry xdna.client_list
    (fun client t => t ++ [Call.amdxdna_hwctx_resume client]) tr
  { ret := 0, xdna := xdna, trace := tr }

/-- The function amdxdna_pmops_resume. -/
def amdxdna_pmops_resume (xdna : amdxdna_dev) : pm_result :=
  match xdna.dev_info.ops.resume with
  | some ret =>
    let tr := [Call.ops_resume ret]
    if ret ≠ 0 then { ret := ret, xdna := xdna, trace := tr }
    else pmops_resume_clients xdna tr
  | none => pmops_resume_clients xdna []

/-- Modelled from the spec: amdxdna_hwctx_resume is defined outside the
sources at hand. It resumes the contexts the client owns, and only those;
the list is the order in which it resumes them. -/
def amdxdna_hwctx_resume (client : amdxdna_client) : List amdxdna_hwctx :=
  client.hwctx_idr

/-- The hardware contexts resumed along a trace, in the order they are
resumed. -/
def resumed_hwctxs : List Call → List amdxdna_hwctx
  | [] => []
  | Call.amdxdna_hwctx_resume c :: rest => amdxdna_hwctx_resume c ++ resumed_hwctxs rest
  | _ :: rest => resumed_hwctxs rest

/-- Resumption in creation order: of any two resumed contexts, the one
created earlier stands earlier in the list. -/
def creation_ordered (l : List amdxdna_hwctx) : Prop :=
  ∀ (i j : Fin l.length), (l.get i).seq < (l.get j).seq → i.val < j.val

/-- Number of calls of amdxdna_hwctx_resume in a trace. -/
def count_hwctx_resume : List Call → Nat
  | [] => 0
  | Call.amdxdna_hwctx_resume _ :: rest => count_hwctx_resume rest + 1
  | _ :: rest => count_hwctx_resume rest

/-- Number of wake requests (ops resume) in a trace. -/
def count_ops_resume : List Call → Nat
  | [] => 0
  | Call.ops_resume _ :: rest => count_ops_resume rest + 1
  | _ :: rest => count_ops_resume rest

/-! ## Construction of a KMQ hardware context (hwctx.cpp) -/

/-- Constants and layout facts the constructor takes from headers outside the
sources at hand: the sizes of the two message structs, the widths in bits of
the fields num_cus and cu_func, which are narrower than the values assigned
to them, and the named values it uses. The field xdna_addr takes a device
address of its own width (it is printed as a pointer) and has no width
here. -/
structure shim_abi where
  sizeof_param_config_cu : Nat
  sizeof_cu_config : Nat
  num_cus_bits : Nat
  cu_func_bits : Nat
  DRM_AMDXDNA_HWCTX_CONFIG_CU : Nat
  XRT_BO_FLAGS_CACHEABLE : Nat
  XRT_BO_USE_DEBUG : Nat
  INVALID_CTX_HANDLE : Nat
deriving DecidableEq, Repr

/-- One element of get_cu_info(): the load image and the function selector
of a compute unit. -/
structure cu_info_t where
  m_pdi : List Nat
  m_func : Nat
deriving DecidableEq, Repr

/-- The flag word xcl_bo_flags, by the two of its fields the code reads. -/
structure xcl_bo_flags where
  flags : Nat
  use : Nat
deriving DecidableEq, Repr

/-- A buffer object: its device address and size as get_properties reports
them, the bytes written through its host mapping, and the number of bytes
last synced to the device. -/
structure buffer_handle where
  paddr : Nat
  size : Nat
  data : List Nat
  synced : Nat
deriving DecidableEq, Repr

/-- The allocator of the device, device::alloc_bo, over its state: context
handle, size and flags in, the new buffer and the next state out. -/
structure device_t (σ : Type) where
  alloc_bo : σ → Nat → Nat → xcl_bo_flags → buffer_handle × σ

/-- One entry amdxdna_cu_config of the message. -/
structure amdxdna_cu_config where
  xdna_addr : Nat
  cu_func : Nat
deriving DecidableEq, Repr

/-- The message amdxdna_hwctx_param_config_cu. -/
structure amdxdna_hwctx_param_config_cu where
  num_cus : Nat
  cu_configs : List amdxdna_cu_config
deriving DecidableEq, Repr

/-- The ioctl argument amdxdna_drm_config_hwctx; param_val is the message
the pointer refers to. -/
structure amdxdna_drm_config_hwctx where
  handle : Nat
  param_type : Nat
  param_val : amdxdna_hwctx_param_config_cu
  param_val_size : Nat
deriving DecidableEq, Repr

/-- The method hw_ctx_kmq::alloc_bo with a null userptr. -/
def hw_ctx_kmq_alloc_bo {σ : Type} (K : shim_abi) (dev : device_t σ) (slotidx : Nat)
    (heap : σ) (size : Nat) (f : xcl_bo_flags) : buffer_handle × σ :=
  if f.use = K.XRT_BO_USE_DEBUG then dev.alloc_bo heap slotidx size f
  else dev.alloc_bo heap K.INVALID_CTX_HANDLE size f

/-- What the loop of the constructor works on: the member m_pdi_bos, the
array cu_configs inside the parameter buffer, and the allocator state. -/
structure kmq_state (σ : Type) where
  m_pdi_bos : List buffer_handle
  cu_configs : List amdxdna_cu_config
  heap : σ

/-- The body of the for loop of the constructor at index i. An index outside
cu_info or m_pdi_bos leaves the state as it is. The assignment to cu_func
keeps the low cu_func_bits bits of m_func. -/
def hw_ctx_kmq_body {σ : Type} (K : shim_abi) (dev : device_t σ) (slotidx : Nat)
    (f : xcl_bo_flags) (cu_info : List cu_info_t) (i : Nat) (s : kmq_state σ) :
    kmq_state σ :=
  match cu_info[i]? with
  | none => s
  | some ci =>
    let r := hw_ctx_kmq_alloc_bo K dev slotidx s.heap ci.m_pdi.length f
    let bos := s.m_pdi_bos ++ [r.1]
    match bos[i]? with
    | none => { s with m_pdi_bos := bos, heap := r.2 }
    | some pdi_bo =>
      let pdi_paddr := pdi_bo.paddr
      let pdi_bo1 := { pdi_bo with data := ci.m_pdi, synced := pdi_bo.size }
      { m_pdi_bos := bos.set i pdi_bo1
        cu_configs := s.cu_configs.set i
          { xdna_addr := pdi_paddr, cu_func := ci.m_func % 2 ^ K.cu_func_bits }
        heap := r.2 }

/-- A counting for loop: the body runs at i, i+1, ... for the given number
of rounds. -/
def for_loop {τ : Type} (body : Nat → τ → τ) : Nat → Nat → τ → τ
  | 0, _, s => s
  | k + 1, i, s => for_loop body k (i + 1) (body i s)

/-- Outcome of the constructor: the ioctl argument it sends, the member
m_pdi_bos and the allocator state. -/
structure kmq_result (σ : Type) where
  arg : amdxdna_drm_config_hwctx
  m_pdi_bos : List buffer_handle
  heap : σ

/-- The constructor hw_ctx_kmq::hw_ctx_kmq after the base class is built:
cu_info is what get_cu_info returns and slotidx what get_slotidx returns.
The assignment to num_cus keeps the low num_cus_bits bits of the size of
cu_info. -/
def hw_ctx_kmq {σ : Type} (K : shim_abi) (dev : device_t σ) (slotidx : Nat)
    (cu_info : List cu_info_t) (heap : σ) : kmq_result σ :=
  let buf_size := K.sizeof_param_config_cu + cu_info.length * K.sizeof_cu_config
  let num_cus := cu_info.length % 2 ^ K.num_cus_bits
  let f : xcl_bo_flags := { flags := K.XRT_BO_FLAGS_CACHEABLE, use := 0 }
  let s0 : kmq_state σ :=
    { m_pdi_bos := []
      cu_configs := List.replicate cu_info.length { xdna_addr := 0, cu_func := 0 }
      heap := heap }
  let s := for_loop (hw_ctx_kmq_body K dev slotidx f cu_info) cu_info.length 0 s0
  { arg :=
      { handle := slotidx
        param_type := K.DRM_AMDXDNA_HWCTX_CONFIG_CU
        param_val := { num_cus := num_cus, cu_configs := s.cu_configs }
        param_val_size := buf_size }
    m_pdi_bos := s.m_pdi_bos
    heap := s.heap }

/-- The buffers obtained by asking the allocator for one load-image buffer
per compute unit, in the order of the list, each filled with the image of
its unit and synced; with the allocator state left behind. -/
def alloc_pdi_bos {σ : Type} (K : shim_abi) (dev : device_t σ) (slotidx : Nat)
    (f : xcl_bo_flags) : List cu_info_t → σ → List buffer_handle × σ
  | [], heap => ([], heap)
  | ci :: rest, heap =>
    let r := hw_ctx_kmq_alloc_bo K dev slotidx heap ci.m_pdi.length f
    let t := alloc_pdi_bos K dev slotidx f rest r.2
    ({ r.1 with data := ci.m_pdi, synced := r.1.size } :: t.1, t.2)

/-- A bump allocator used to exercise the constructor: buffers are laid out
one after the other from the address in the state. -/
def bump_device : device_t Nat :=
  { alloc_bo := fun next _ size _ =>
      ({ paddr := next, size := size, data := [], synced := 0 }, next + size) }

/-- The layout of the configuration message: an 8-byte header whose num_cus
is 16 bits wide (print_cu_config walks it with a uint16_t index), 16-byte
entries whose cu_func is one byte after the 8-byte xdna_addr. -/
def sample_abi : shim_abi :=
  { sizeof_param_config_cu := 8
    sizeof_cu_config := 16
    num_cus_bits := 16
    cu_func_bits := 8
    DRM_AMDXDNA_HWCTX_CONFIG_CU := 0
    XRT_BO_FLAGS_CACHEABLE := 16777216
    XRT_BO_USE_DEBUG := 1
    INVALID_CTX_HANDLE := 4294967295 }

/-- The contexts of the clients of a list, client by client in list order,
each client contributing its contexts in the order amdxdna_hwctx_resume
takes them. -/
def hwctxs_by_client : List amdxdna_client → List amdxdna_hwctx
  | [] => []
  | c :: rest => amdxdna_hwctx_resume c ++ hwctxs_by_client rest

/-- Number of calls of amdxdna_hwctx_suspend in a trace. -/
def count_hwctx_suspend : List Call → Nat
  | [] => 0
  | Call.amdxdna_hwctx_suspend _ :: rest => count_hwctx_suspend rest + 1
  | _ :: rest => count_hwctx_suspend rest

/-- An ops table with every op present and succeeding. -/
def sample_ops : amdxdna_dev_ops :=
  { init := some 0, fini := true, suspend := true, resume := some 0, debugfs := true }

/-- A first client, opened first, owning the context created second. -/
def client_a : amdxdna_client :=
  { addr := 4096, pid := 100, sva := 64, pasid := 1,
    hwctx_idr := [{ id := 1, seq := 2 }], dev_heap := none }

/-- A second client, opened second, owning the context created first. -/
def client_b : amdxdna_client :=
  { addr := 8192, pid := 200, sva := 128, pasid := 2,
    hwctx_idr := [{ id := 1, seq := 1 }], dev_heap := none }

/-- A device with the two clients in the order they were opened. -/
def two_client_dev : amdxdna_dev :=
  { dev_info := dev_npu1_info sample_ops, client_list := [client_a, client_b] }

/-- A device whose wake request fails with -ETIMEDOUT. -/
def wake_fail_dev : amdxdna_dev :=
  { dev_info := dev_npu1_info { sample_ops with resume := some (-110) },
    client_list := [client_a, client_b] }

/-- Whether amdxdna_drm_open meets one of its three failure causes: the
allocation of the client fails, the SVA bind returns an error pointer, or the
PASID of the binding is invalid. -/
def open_fails (skip_sva : Bool) (env : open_env) : Prop :=
  env.kzalloc = none ∨
  (skip_sva = false ∧
    (IS_ERR env.iommu_sva_bind_device = true ∨
      env.iommu_sva_get_pasid = IOMMU_PASID_INVALID))

/-- An empty device of the NPU1 generation. -/
def empty_dev : amdxdna_dev :=
  { dev_info := dev_npu1_info sample_ops, client_list := [] }

/-- Platform answers for an open whose binding has an invalid PASID. -/
def bad_pasid_env : open_env :=
  { kzalloc := some 12288, pid_nr := 300, iommu_sva_bind_device := 256,
    iommu_sva_get_pasid := IOMMU_PASID_INVALID }

/-- Platform answers for an open that succeeds. -/
def good_env : open_env :=
  { kzalloc := some 12288, pid_nr := 300, iommu_sva_bind_device := 256,
    iommu_sva_get_pasid := 7 }

/-- Whether every step of a probe succeeds: the DRM device is allocated, the
descriptor is found, it has both the init and the fini op, hardware init
returns 0, and so do sysfs init and DRM registration. -/
def probe_all_ok (ids : List (amdxdna_device_id amdxdna_dev_info)) (env : probe_env)
    (pdev : pci_dev) : Prop :=
  IS_ERR env.devm_drm_dev_alloc = false ∧
  (∃ info, amdxdna_get_dev_info ids pdev = some info ∧
    info.ops.init = some 0 ∧ info.ops.fini = true) ∧
  env.amdxdna_sysfs_init = 0 ∧ env.drm_dev_register = 0

/-- Number of calls of the fini op in a trace. -/
def count_ops_fini : List Call → Nat
  | [] => 0
  | Call.ops_fini :: rest => count_ops_fini rest + 1
  | _ :: rest => count_ops_fini rest

/-- Whether the trace shows a hardware init that succeeded. -/
def hw_init_ok (tr : List Call) : Bool := tr.contains (Call.ops_init 0)

/-- The device-id table over three descriptors that share the sample ops. -/
def sample_ids : List (amdxdna_device_id amdxdna_dev_info) :=
  amdxdna_ids (dev_npu1_info sample_ops) (dev_npu1_info sample_ops) (dev_npu1_info sample_ops)

/-- Kernel answers of a probe whose DRM registration fails with -EINVAL. -/
def register_fail_env : probe_env :=
  { devm_drm_dev_alloc := 65536, amdxdna_sysfs_init := 0, drm_dev_register := -22 }

/-- The flag word the constructor allocates the load-image buffers with. -/
def pdi_bo_flags (K : shim_abi) : xcl_bo_flags :=
  { flags := K.XRT_BO_FLAGS_CACHEABLE, use := 0 }

/-- The message entry for a compute unit and its load-image buffer: the
device address of the buffer and the function selector as the cu_func field
holds it. -/
def cu_config_of (K : shim_abi) (bo : buffer_handle) (ci : cu_info_t) : amdxdna_cu_config :=
  { xdna_addr := bo.paddr, cu_func := ci.m_func % 2 ^ K.cu_func_bits }

/-- A loaded image with 65536 compute units, each with a one-byte load
image. -/
def many_cu_info : List cu_info_t :=
  List.replicate 65536 { m_pdi := [0], m_func := 0 }

/-- A loaded image with one compute unit whose function selector is 300. -/
def wide_func_cu_info : List cu_info_t :=
  [{ m_pdi := [7], m_func := 300 }]

/-- Two compute units with load images of 3 and 2 bytes. -/
def sample_cu_info : List cu_info_t :=
  [{ m_pdi := [1, 2, 3], m_func := 0 }, { m_pdi := [4, 5], m_func := 1 }]

/-! # Theorems -/

/-! ## Device-id lookup -/

/-- C7: for every identity pair the lookup returns the descriptor of the
table row whose device id and revision both equal the pair (NPU1 for
(0x1502, 0x0), NPU2 for (0x17f0, 0x0), NPU4 for (0x17f0, 0x10)) and NULL for
every other pair; the pair (0x0, 0x0) matches only the zero terminator and
yields NULL; the lookup fails exactly on the pairs outside the three
supported ones. -/
theorem amdxdna_get_dev_info_spec {α : Type} (n1 n2 n4 : α) (pdev : pci_dev) :
    (amdxdna_get_dev_info (amdxdna_ids n1 n2 n4) pdev =
      if pdev.device = 0x1502 ∧ pdev.revision = 0x0 then some n1
      else if pdev.device = 0x17f0 ∧ pdev.revision = 0x0 then some n2
      else if pdev.device = 0x17f0 ∧ pdev.revision = 0x10 then some n4
      else none) ∧
    (∀ e ∈ amdxdna_ids n1 n2 n4, (e.device = pdev.device ∧ e.revision = pdev.revision) →
      amdxdna_get_dev_info (amdxdna_ids n1 n2 n4) pdev = e.dev_info) ∧
    amdxdna_get_dev_info (amdxdna_ids n1 n2 n4) { device := 0x0, revision := 0x0 } = none ∧
    (amdxdna_get_dev_info (amdxdna_ids n1 n2 n4) pdev = none ↔
      (pdev.device, pdev.revision) ∉
        [((0x1502 : Nat), (0x0 : Nat)), (0x17f0, 0x0), (0x17f0, 0x10)]) := by
  obtain ⟨d, r⟩ := pdev
  refine ⟨?_, ?_, ?_, ?_⟩
  · simp only [amdxdna_get_dev_info, amdxdna_ids, get_dev_info_loop]
    split_ifs <;> rfl
  · intro e he hm
    simp only [amdxdna_ids, List.mem_cons, List.mem_singleton, List.not_mem_nil, or_false] at he
    simp only [amdxdna_get_dev_info, amdxdna_ids, get_dev_info_loop]
    rcases he with rfl | rfl | rfl | rfl <;> simp only at hm <;>
      obtain ⟨h1, h2⟩ := hm <;> subst h1 <;> subst h2 <;> simp
  · simp [amdxdna_get_dev_info, amdxdna_ids, get_dev_info_loop]
  · simp only [amdxdna_get_dev_info, amdxdna_ids, get_dev_info_loop, List.mem_cons,
      List.mem_singleton, List.not_mem_nil, or_false, Prod.mk.injEq]
    split_ifs <;> simp_all

/-! ## NPU1 register map -/

/-- C10: in the NPU1 descriptor every entry of the PSP, SMU and SRAM tables
holds the register address minus the base of its window, the address is at
or above the base (the offset is not negative), and the offset lies inside
the window: below 0x80000 for the window based at 0x3000000, below 0x40000
for the SRAM window based at 0x3080000. PSP_CMD_REG has offset 0x100A0,
SMU_CMD_REG 0x100AC, MBOX_CHANN_OFF 0x20000 and FW_ALIVE_OFF 0x3F000; the
mailbox and SRAM window bases are 0x30C0000 and 0x3080000. -/
theorem npu1_dev_priv_offsets :
    (∀ r : psp_reg_idx,
      (npu1_dev_priv.psp_regs_off r).offset = (npu1_psp_addr r : Int) - (NPU1_PSP_BAR_BASE : Int) ∧
      NPU1_PSP_BAR_BASE ≤ npu1_psp_addr r ∧
      0 ≤ (npu1_dev_priv.psp_regs_off r).offset ∧
      (npu1_dev_priv.psp_regs_off r).offset < 0x80000 ∧
      (npu1_dev_priv.psp_regs_off r).bar_idx = NPU1_PSP_BAR_INDEX) ∧
    (∀ r : smu_reg_idx,
      (npu1_dev_priv.smu_regs_off r).offset = (npu1_smu_addr r : Int) - (NPU1_SMU_BAR_BASE : Int) ∧
      NPU1_SMU_BAR_BASE ≤ npu1_smu_addr r ∧
      0 ≤ (npu1_dev_priv.smu_regs_off r).offset ∧
      (npu1_dev_priv.smu_regs_off r).offset < 0x80000 ∧
      (npu1_dev_priv.smu_regs_off r).bar_idx = NPU1_SMU_BAR_INDEX) ∧
    (∀ r : sram_reg_idx,
      (npu1_dev_priv.sram_offs r).offset = (npu1_sram_addr r : Int) - (NPU1_SRAM_BAR_BASE : Int) ∧
      NPU1_SRAM_BAR_BASE ≤ npu1_sram_addr r ∧
      0 ≤ (npu1_dev_priv.sram_offs r).offset ∧
      (npu1_dev_priv.sram_offs r).offset < 0x40000 ∧
      (npu1_dev_priv.sram_offs r).bar_idx = NPU1_SRAM_BAR_INDEX) ∧
    NPU1_PSP_BAR_BASE = 0x3000000 ∧ NPU1_SMU_BAR_BASE = 0x3000000 ∧
    NPU1_SRAM_BAR_BASE = 0x3080000 ∧
    (npu1_dev_priv.psp_regs_off psp_reg_idx.PSP_CMD_REG).offset = 0x100A0 ∧
    (npu1_dev_priv.smu_regs_off smu_reg_idx.SMU_CMD_REG).offset = 0x100AC ∧
    (npu1_dev_priv.sram_offs sram_reg_idx.MBOX_CHANN_OFF).offset = 0x20000 ∧
    (npu1_dev_priv.sram_offs sram_reg_idx.FW_ALIVE_OFF).offset = 0x3F000 ∧
    npu1_dev_priv.mbox_dev_addr = 0x30C0000 ∧
    npu1_dev_priv.sram_dev_addr = 0x3080000 := by
  refine ⟨?_, ?_, ?_, ?_⟩
  · intro r; cases r <;> decide
  · intro r; cases r <;> decide
  · intro r; cases r <;> decide
  · decide

/-! ## Power hooks -/

/-- A list walk that appends one call per entry leaves the calls of the
entries, in list order, after what was there. -/
theorem list_for_each_entry_log {α : Type} (l : List α) (f : α → Call) (tr : List Call) :
    list_for_each_entry l (fun x t => t ++ [f x]) tr = tr ++ l.map f := by
  unfold list_for_each_entry
  induction l generalizing tr with
  | nil => simp
  | cons a l ih => simp [List.foldl_cons, ih]

/-- An element outside l that splits l ++ [a] splits it at the end. -/
theorem split_at_last {β : Type} (a : β) (l pre post : List β) (ha : a ∉ l)
    (h : pre ++ a :: post = l ++ [a]) : post = [] ∧ pre = l := by
  induction l generalizing pre with
  | nil =>
    cases pre with
    | nil => simp at h; exact ⟨h, rfl⟩
    | cons b pre => simp at h
  | cons b l ih =>
    cases pre with
    | nil =>
      simp only [List.nil_append, List.cons_append, List.cons.injEq] at h
      exact absurd (h.1 ▸ List.mem_cons_self _ _) ha
    | cons c pre =>
      simp only [List.cons_append, List.cons.injEq] at h
      have hl : a ∉ l := fun hm => ha (List.mem_cons_of_mem _ hm)
      obtain ⟨h1, h2⟩ := ih pre hl h.2
      exact ⟨h1, by rw [h.1, h2]⟩

/-- Counting the suspend calls of a trace of suspend calls. -/
theorem count_hwctx_suspend_map (l : List amdxdna_client) (tl : List Call) :
    count_hwctx_suspend (l.map Call.amdxdna_hwctx_suspend ++ tl) =
      l.length + count_hwctx_suspend tl := by
  induction l with
  | nil => simp
  | cons a l ih => simp [count_hwctx_suspend, ih]; omega

/-- C1: amdxdna_pmops_suspend calls amdxdna_hwctx_suspend on every client of
the list exactly once, in list order, and issues the firmware suspend op
(when the generation has one) only after the last of these calls, never
before or between them; the client list is unchanged and the hook
returns 0. -/
theorem amdxdna_pmops_suspend_order (xdna : amdxdna_dev) :
    (amdxdna_pmops_suspend xdna).ret = 0 ∧
    (amdxdna_pmops_suspend xdna).xdna.client_list = xdna.client_list ∧
    (amdxdna_pmops_suspend xdna).trace =
      xdna.client_list.map Call.amdxdna_hwctx_suspend ++
        (if xdna.dev_info.ops.suspend then [Call.ops_suspend] else []) ∧
    count_hwctx_suspend (amdxdna_pmops_suspend xdna).trace = xdna.client_list.length ∧
    (∀ c, (amdxdna_pmops_suspend xdna).trace.count (Call.amdxdna_hwctx_suspend c) =
      xdna.client_list.count c) ∧
    (∀ pre post, (amdxdna_pmops_suspend xdna).trace = pre ++ Call.ops_suspend :: post →
      post = [] ∧ pre = xdna.client_list.map Call.amdxdna_hwctx_suspend) := by
  have htr : (amdxdna_pmops_suspend xdna).trace =
      xdna.client_list.map Call.amdxdna_hwctx_suspend ++
        (if xdna.dev_info.ops.suspend then [Call.ops_suspend] else []) := by
    simp only [amdxdna_pmops_suspend, list_for_each_entry_log, List.nil_append]
    split_ifs <;> simp
  have hnot : Call.ops_suspend ∉ xdna.client_list.map Call.amdxdna_hwctx_suspend := by
    simp
  refine ⟨rfl, rfl, htr, ?_, ?_, ?_⟩
  · rw [htr, count_hwctx_suspend_map]
    split_ifs <;> simp [count_hwctx_suspend]
  · intro c
    rw [htr, List.count_append]
    have h1 : (xdna.client_list.map Call.amdxdna_hwctx_suspend).count
        (Call.amdxdna_hwctx_suspend c) = xdna.client_list.count c := by
      induction xdna.client_list with
      | nil => simp
      | cons a l ih =>
        simp only [List.map_cons, List.count_cons, ih]
        by_cases hac : a = c
        · simp [hac]
        · simp [hac]
    rw [h1]
    split_ifs <;> simp
  · intro pre post h
    rw [htr] at h
    split_ifs at h with hs
    · exact split_at_last _ _ _ _ hnot h.symm
    · rw [List.append_nil] at h
      exact absurd (h ▸ (by simp : Call.ops_suspend ∈ pre ++ Call.ops_suspend :: post)) hnot

/-- Counting the resume calls of a trace of resume calls. -/
theorem count_hwctx_resume_map (l : List amdxdna_client) :
    count_hwctx_resume (l.map Call.amdxdna_hwctx_resume) = l.length := by
  induction l with
  | nil => rfl
  | cons a l ih => simp [count_hwctx_resume, ih]

/-- The contexts resumed by a trace of resume calls are those of the clients,
client by client. -/
theorem resumed_hwctxs_map (l : List amdxdna_client) :
    resumed_hwctxs (l.map Call.amdxdna_hwctx_resume) = hwctxs_by_client l := by
  induction l with
  | nil => rfl
  | cons a l ih => simp [resumed_hwctxs, hwctxs_by_client, ih]

/-- The trace of the client walk of the resume hook. -/
theorem pmops_resume_clients_trace (xdna : amdxdna_dev) (tr : List Call) :
    (pmops_resume_clients xdna tr).trace =
      tr ++ xdna.client_list.map Call.amdxdna_hwctx_resume := by
  simp only [pmops_resume_clients, list_for_each_entry_log]

/-- C3: if the firmware wake request returns a non-zero code e, the resume
hook returns exactly e, has issued the wake request exactly once, and has
called amdxdna_hwctx_resume on no client. -/
theorem amdxdna_pmops_resume_wake_failure (xdna : amdxdna_dev) (e : Int)
    (hop : xdna.dev_info.ops.resume = some e) (he : e ≠ 0) :
    (amdxdna_pmops_resume xdna).ret = e ∧
    (amdxdna_pmops_resume xdna).trace = [Call.ops_resume e] ∧
    count_ops_resume (amdxdna_pmops_resume xdna).trace = 1 ∧
    count_hwctx_resume (amdxdna_pmops_resume xdna).trace = 0 ∧
    (∀ c, Call.amdxdna_hwctx_resume c ∉ (amdxdna_pmops_resume xdna).trace) ∧
    (amdxdna_pmops_resume xdna).xdna = xdna := by
  have h : amdxdna_pmops_resume xdna =
      { ret := e, xdna := xdna, trace := [Call.ops_resume e] } := by
    simp [amdxdna_pmops_resume, hop, he]
  rw [h]
  simp [count_ops_resume, count_hwctx_resume]

/-- Witness of C3 on a device whose wake request fails with -110. -/
theorem amdxdna_pmops_resume_wake_failure_witness :
    wake_fail_dev.dev_info.ops.resume = some (-110) ∧ (-110 : Int) ≠ 0 ∧
    (amdxdna_pmops_resume wake_fail_dev).ret = -110 ∧
    (amdxdna_pmops_resume wake_fail_dev).trace = [Call.ops_resume (-110)] ∧
    count_ops_resume (amdxdna_pmops_resume wake_fail_dev).trace = 1 ∧
    count_hwctx_resume (amdxdna_pmops_resume wake_fail_dev).trace = 0 ∧
    (∀ c, Call.amdxdna_hwctx_resume c ∉ (amdxdna_pmops_resume wake_fail_dev).trace) ∧
    (amdxdna_pmops_resume wake_fail_dev).xdna = wake_fail_dev :=
  ⟨rfl, by decide, amdxdna_pmops_resume_wake_failure wake_fail_dev (-110) rfl (by decide)⟩

/-- C2, as stated, fails: with two clients opened in the order a, b, where
the context of b was created before the context of a, the wake request
succeeds and the hook returns 0, yet the contexts are not resumed in
creation order: the context of a is resumed first. -/
theorem amdxdna_pmops_resume_not_creation_ordered :
    two_client_dev.dev_info.ops.resume = some 0 ∧
    (amdxdna_pmops_resume two_client_dev).ret = 0 ∧
    resumed_hwctxs (amdxdna_pmops_resume two_client_dev).trace =
      [{ id := 1, seq := 2 }, { id := 1, seq := 1 }] ∧
    ¬ creation_ordered (resumed_hwctxs (amdxdna_pmops_resume two_client_dev).trace) := by
  have hres : resumed_hwctxs (amdxdna_pmops_resume two_client_dev).trace =
      [{ id := 1, seq := 2 }, { id := 1, seq := 1 }] := by decide
  refine ⟨rfl, by decide, hres, ?_⟩
  rw [hres]
  intro h
  have h2 := h ⟨1, by decide⟩ ⟨0, by decide⟩ (by decide)
  exact absurd h2 (by decide)

/-- C2 amended: when the firmware wake request succeeds, or the generation
has no resume op, the resume hook returns 0 and calls amdxdna_hwctx_resume on
every client of the client list exactly once, in list order (the order the
clients were opened), all after the wake request; the contexts are thus
resumed client by client in that order. -/
theorem amdxdna_pmops_resume_client_order (xdna : amdxdna_dev)
    (hop : xdna.dev_info.ops.resume = none ∨ xdna.dev_info.ops.resume = some 0) :
    (amdxdna_pmops_resume xdna).ret = 0 ∧
    (amdxdna_pmops_resume xdna).xdna = xdna ∧
    (amdxdna_pmops_resume xdna).trace =
      (match xdna.dev_info.ops.resume with
        | some r => [Call.ops_resume r]
        | none => []) ++ xdna.client_list.map Call.amdxdna_hwctx_resume ∧
    count_hwctx_resume (amdxdna_pmops_resume xdna).trace = xdna.client_list.length ∧
    count_ops_resume (amdxdna_pmops_resume xdna).trace =
      (if xdna.dev_info.ops.resume = none then 0 else 1) ∧
    resumed_hwctxs (amdxdna_pmops_resume xdna).trace = hwctxs_by_client xdna.client_list := by
  have hc : ∀ l : List amdxdna_client,
      count_ops_resume (l.map Call.amdxdna_hwctx_resume) = 0 := by
    intro l
    induction l with
    | nil => rfl
    | cons a l ih => simp [count_ops_resume, ih]
  rcases hop with hop | hop
  · have h : amdxdna_pmops_resume xdna = pmops_resume_clients xdna [] := by
      simp [amdxdna_pmops_resume, hop]
    rw [h, pmops_resume_clients_trace, hop]
    refine ⟨rfl, rfl, rfl, ?_, ?_, ?_⟩
    · simpa using count_hwctx_resume_map xdna.client_list
    · simpa using hc xdna.client_list
    · simpa using resumed_hwctxs_map xdna.client_list
  · have h : amdxdna_pmops_resume xdna = pmops_resume_clients xdna [Call.ops_resume 0] := by
      simp [amdxdna_pmops_resume, hop]
    rw [h, pmops_resume_clients_trace, hop]
    refine ⟨rfl, rfl, rfl, ?_, ?_, ?_⟩
    · simpa [count_hwctx_resume] using count_hwctx_resume_map xdna.client_list
    · simpa [count_ops_resume] using hc xdna.client_list
    · simpa [resumed_hwctxs] using resumed_hwctxs_map xdna.client_list

/-- Witness of the amended C2 on the two-client device, whose wake request
succeeds. -/
theorem amdxdna_pmops_resume_client_order_witness :
    (two_client_dev.dev_info.ops.resume = none ∨
      two_client_dev.dev_info.ops.resume = some 0) ∧
    (amdxdna_pmops_resume two_client_dev).ret = 0 ∧
    (amdxdna_pmops_resume two_client_dev).trace =
      [Call.ops_resume 0, Call.amdxdna_hwctx_resume client_a,
        Call.amdxdna_hwctx_resume client_b] :=
  ⟨Or.inr rfl, (amdxdna_pmops_resume_client_order two_client_dev (Or.inr rfl)).1,
    (amdxdna_pmops_resume_client_order two_client_dev (Or.inr rfl)).2.2.1⟩

/-! ## Client registry -/

/-- An error pointer converts to a negative int. -/
theorem to_int_PTR_ERR_neg (p : Nat) (h : IS_ERR p = true) : to_int (PTR_ERR p) < 0 := by
  simp only [IS_ERR, PTR_MOD, MAX_ERRNO, decide_eq_true_eq] at h
  simp only [PTR_ERR, to_int, PTR_MOD]
  split_ifs <;> omega

/-- Unlinking a node whose address no earlier node shares removes that node
and keeps the others in place. -/
theorem list_del_middle (c : amdxdna_client) (l1 l2 : List amdxdna_client)
    (h : ∀ x ∈ l1, x.addr ≠ c.addr) : list_del c (l1 ++ c :: l2) = l1 ++ l2 := by
  unfold list_del
  rw [List.eraseP_append_right]
  · simp [List.eraseP_cons]
  · intro x hx
    simpa using h x hx

/-- The return value of amdxdna_drm_open is non-zero exactly under one of its
three failure causes. -/
theorem open_ret_ne_zero_iff (skip_sva : Bool) (env : open_env) (xdna : amdxdna_dev) :
    (amdxdna_drm_open skip_sva env xdna).ret ≠ 0 ↔ open_fails skip_sva env := by
  obtain ⟨kz, pid, sva, pasid⟩ := env
  cases kz with
  | none => simp [amdxdna_drm_open, open_fails, ENOMEM]
  | some addr =>
    cases skip_sva with
    | true => simp [amdxdna_drm_open, open_fails, open_register]
    | false =>
      by_cases herr : IS_ERR sva = true
      · have hneg := to_int_PTR_ERR_neg sva herr
        have hne : to_int (PTR_ERR sva) ≠ 0 := by omega
        simp [amdxdna_drm_open, open_fails, herr, hne]
      · by_cases hp : pasid = IOMMU_PASID_INVALID
        · simp [amdxdna_drm_open, open_fails, herr, hp, ENODEV]
        · simp [amdxdna_drm_open, open_fails, herr, hp, open_register]

/-- C5: amdxdna_drm_open fails exactly when the client allocation fails, the
SVA bind returns an error, or the PASID obtained is invalid; when it fails it
returns a negative error code, the device and its client list are what they
were, no client is stored in the file, and no isolation handle stays bound: a
handle bound during the call has been unbound before the return. -/
theorem amdxdna_drm_open_failure (skip_sva : Bool) (env : open_env) (xdna : amdxdna_dev) :
    ((amdxdna_drm_open skip_sva env xdna).ret ≠ 0 ↔ open_fails skip_sva env) ∧
    ((amdxdna_drm_open skip_sva env xdna).ret ≠ 0 →
      (amdxdna_drm_open skip_sva env xdna).ret < 0 ∧
      (amdxdna_drm_open skip_sva env xdna).xdna = xdna ∧
      (amdxdna_drm_open skip_sva env xdna).xdna.client_list = xdna.client_list ∧
      (amdxdna_drm_open skip_sva env xdna).driver_priv = none ∧
      sva_live (amdxdna_drm_open skip_sva env xdna).trace [] = [] ∧
      (∀ p, Call.iommu_sva_bind_device p ∈ (amdxdna_drm_open skip_sva env xdna).trace →
        IS_ERR p = false →
        Call.iommu_sva_unbind_device p ∈ (amdxdna_drm_open skip_sva env xdna).trace)) := by
  obtain ⟨kz, pid, sva, pasid⟩ := env
  cases kz with
  | none =>
    simp [amdxdna_drm_open, open_fails, ENOMEM, sva_live]
  | some addr =>
    cases skip_sva with
    | true => simp [amdxdna_drm_open, open_fails, open_register]
    | false =>
      by_cases herr : IS_ERR sva = true
      · have hneg := to_int_PTR_ERR_neg sva herr
        have hne : to_int (PTR_ERR sva) ≠ 0 := by omega
        simp [amdxdna_drm_open, open_fails, herr, hneg, hne, sva_live]
      · by_cases hp : pasid = IOMMU_PASID_INVALID
        · simp [amdxdna_drm_open, open_fails, herr, hp, ENODEV, sva_live]
        · simp [amdxdna_drm_open, open_fails, herr, hp, open_register]

/-- Witness of C5: an open whose binding has an invalid PASID fails with
-ENODEV, registers no client and leaves no handle bound. -/
theorem amdxdna_drm_open_failure_witness :
    (amdxdna_drm_open false bad_pasid_env two_client_dev).ret = -19 ∧
    (amdxdna_drm_open false bad_pasid_env two_client_dev).xdna.client_list =
      [client_a, client_b] ∧
    sva_live (amdxdna_drm_open false bad_pasid_env two_client_dev).trace [] = [] :=
  ⟨by decide,
    ((amdxdna_drm_open_failure false bad_pasid_env two_client_dev).2 (by decide)).2.2.1,
    ((amdxdna_drm_open_failure false bad_pasid_env two_client_dev).2 (by decide)).2.2.2.2.1⟩

/-- C8: a successful amdxdna_drm_open on a device with client list L
registers the new client c at the tail, so that the list is L followed by c,
and a following amdxdna_flush of c removes exactly c: the list is L again,
the other clients and their order unchanged. In particular the list of a
device with no clients is empty again after the open and the flush. The
address of the new client is fresh: no client of L lives at it. -/
theorem open_flush_roundtrip (skip_sva : Bool) (env : open_env) (xdna : amdxdna_dev)
    (hok : (amdxdna_drm_open skip_sva env xdna).ret = 0)
    (hfresh : ∀ x ∈ xdna.client_list, env.kzalloc ≠ some x.addr) :
    ∃ c, (amdxdna_drm_open skip_sva env xdna).driver_priv = some c ∧
      env.kzalloc = some c.addr ∧
      (amdxdna_drm_open skip_sva env xdna).xdna.client_list = xdna.client_list ++ [c] ∧
      (amdxdna_flush (amdxdna_drm_open skip_sva env xdna).xdna c).ret = 0 ∧
      (amdxdna_flush (amdxdna_drm_open skip_sva env xdna).xdna c).xdna.client_list =
        xdna.client_list ∧
      (xdna.client_list = [] →
        (amdxdna_flush (amdxdna_drm_open skip_sva env xdna).xdna c).xdna.client_list = []) := by
  have hfail := open_ret_ne_zero_iff skip_sva env xdna
  have hnf : ¬ open_fails skip_sva env := fun hf => (hfail.2 hf) hok
  obtain ⟨kz, pid, sva, pasid⟩ := env
  cases kz with
  | none => exact absurd (Or.inl rfl) hnf
  | some addr =>
    have hdel : ∀ c : amdxdna_client, c.addr = addr →
        list_del c (xdna.client_list ++ [c]) = xdna.client_list := by
      intro c hc
      have h := list_del_middle c xdna.client_list [] (by
        intro x hx hxc
        exact hfresh x hx (by simp [hxc, hc]))
      simpa using h
    cases skip_sva with
    | true =>
      refine ⟨⟨addr, pid, 0, 0, [], none⟩, ?_⟩
      have hl : (amdxdna_drm_open true ⟨some addr, pid, sva, pasid⟩ xdna).xdna.client_list =
          xdna.client_list ++ [(⟨addr, pid, 0, 0, [], none⟩ : amdxdna_client)] := by
        simp [amdxdna_drm_open, open_register, list_add_tail]
      have hf := hdel (⟨addr, pid, 0, 0, [], none⟩ : amdxdna_client) rfl
      refine ⟨?_, rfl, hl, rfl, ?_, ?_⟩
      · simp [amdxdna_drm_open, open_register]
      · simp only [amdxdna_flush]; rw [hl]; exact hf
      · intro _; simp only [amdxdna_flush]; rw [hl, hf]; assumption
    | false =>
      have h1 : IS_ERR sva = false := by
        cases h : IS_ERR sva
        · rfl
        · exact absurd (Or.inr ⟨rfl, Or.inl h⟩) hnf
      have h2 : pasid ≠ IOMMU_PASID_INVALID := fun h => hnf (Or.inr ⟨rfl, Or.inr h⟩)
      refine ⟨⟨addr, pid, sva, pasid, [], none⟩, ?_⟩
      have hl : (amdxdna_drm_open false ⟨some addr, pid, sva, pasid⟩ xdna).xdna.client_list =
          xdna.client_list ++ [(⟨addr, pid, sva, pasid, [], none⟩ : amdxdna_client)] := by
        simp [amdxdna_drm_open, open_register, list_add_tail, h1, h2]
      have hf := hdel (⟨addr, pid, sva, pasid, [], none⟩ : amdxdna_client) rfl
      refine ⟨?_, rfl, hl, rfl, ?_, ?_⟩
      · simp [amdxdna_drm_open, open_register, h1, h2]
      · simp only [amdxdna_flush]; rw [hl]; exact hf
      · intro _; simp only [amdxdna_flush]; rw [hl, hf]; assumption

/-- Witness of C8: a successful open on the two-client device followed by
the flush of the new client gives the two clients back, in order. -/
theorem open_flush_roundtrip_witness :
    (amdxdna_drm_open false good_env two_client_dev).ret = 0 ∧
    (∀ x ∈ two_client_dev.client_list, good_env.kzalloc ≠ some x.addr) ∧
    ∃ c, (amdxdna_drm_open false good_env two_client_dev).driver_priv = some c ∧
      good_env.kzalloc = some c.addr ∧
      (amdxdna_drm_open false good_env two_client_dev).xdna.client_list =
        two_client_dev.client_list ++ [c] ∧
      (amdxdna_flush (amdxdna_drm_open false good_env two_client_dev).xdna c).ret = 0 ∧
      (amdxdna_flush (amdxdna_drm_open false good_env two_client_dev).xdna c).xdna.client_list =
        two_client_dev.client_list ∧
      (two_client_dev.client_list = [] →
        (amdxdna_flush (amdxdna_drm_open false good_env two_client_dev).xdna c).xdna.client_list
          = []) :=
  ⟨by decide, by decide,
    open_flush_roundtrip false good_env two_client_dev (by decide) (by decide)⟩

/-- C4: along the close path (amdxdna_flush, then amdxdna_drm_close) all
hardware contexts of the client are destroyed by amdxdna_hwctx_remove_all
before its isolation handle is released by iommu_sva_unbind_device: the
remove-all call precedes every unbind, no context of the client is live at
an unbind, and no handle is unbound twice. A client that holds an isolation
handle (skip_sva false, as in every build without AMDXDNA_DEVEL) has it
released exactly once. -/
theorem close_path_order (skip_sva : Bool) (xdna : amdxdna_dev) (client : amdxdna_client) :
    (close_path skip_sva xdna client).trace =
      [Call.amdxdna_hwctx_remove_all client] ++
        (if skip_sva then [] else [Call.iommu_sva_unbind_device client.sva]) ++
        [Call.kfree client.addr] ∧
    (amdxdna_flush xdna client).client.hwctx_idr = [] ∧
    (close_path skip_sva xdna client).client.hwctx_idr = [] ∧
    (∀ pre post p, (close_path skip_sva xdna client).trace =
        pre ++ Call.iommu_sva_unbind_device p :: post →
      Call.amdxdna_hwctx_remove_all client ∈ pre) ∧
    (∀ live ∈ live_at_unbind client.addr client.sva (close_path skip_sva xdna client).trace
        client.hwctx_idr, live = []) ∧
    (∀ p, (close_path skip_sva xdna client).trace.count (Call.iommu_sva_unbind_device p) ≤ 1) ∧
    (skip_sva = false →
      (close_path skip_sva xdna client).trace.count
        (Call.iommu_sva_unbind_device client.sva) = 1 ∧
      live_at_unbind client.addr client.sva (close_path skip_sva xdna client).trace
        client.hwctx_idr = [[]]) := by
  have htr : (close_path skip_sva xdna client).trace =
      [Call.amdxdna_hwctx_remove_all client] ++
        (if skip_sva then [] else [Call.iommu_sva_unbind_device client.sva]) ++
        [Call.kfree client.addr] := by
    simp [close_path, amdxdna_flush, amdxdna_drm_close, amdxdna_hwctx_remove_all]
  refine ⟨htr, rfl, rfl, ?_, ?_, ?_, ?_⟩
  · intro pre post p h
    rw [htr] at h
    cases pre with
    | nil => simp at h
    | cons a pre =>
      simp only [List.cons_append, List.singleton_append, List.cons.injEq] at h
      rw [← h.1]
      exact List.mem_cons_self _ _
  · intro live hl
    rw [htr] at hl
    cases skip_sva <;> simp [live_at_unbind, amdxdna_hwctx_remove_all] at hl
    exact hl
  · intro p
    rw [htr]
    cases skip_sva
    · by_cases hp : client.sva = p
      · simp [List.count_cons, hp]
      · simp [List.count_cons, hp]
    · simp
  · intro hs
    subst hs
    rw [htr]
    simp [live_at_unbind, amdxdna_hwctx_remove_all, List.count_cons]

/-- Witness of C4 on the first client of the two-client device, which holds
the handle 64 and one context. -/
theorem close_path_order_witness :
    (close_path false two_client_dev client_a).trace =
      [Call.amdxdna_hwctx_remove_all client_a, Call.iommu_sva_unbind_device 64,
        Call.kfree 4096] ∧
    (close_path false two_client_dev client_a).trace.count
      (Call.iommu_sva_unbind_device client_a.sva) = 1 ∧
    live_at_unbind client_a.addr client_a.sva (close_path false two_client_dev client_a).trace
      client_a.hwctx_idr = [[]] :=
  ⟨(close_path_order false two_client_dev client_a).1,
    ((close_path_order false two_client_dev client_a).2.2.2.2.2.2 rfl).1,
    ((close_path_order false two_client_dev client_a).2.2.2.2.2.2 rfl).2⟩

/-! ## Probe -/

/-- C6: for every combination of outcomes of the probe steps, amdxdna_probe
returns 0 if and only if every step succeeds; when it returns non-zero it
returns the error of the first failing step, the device is not registered
with DRM, and the fini op has been called exactly once if hardware init had
succeeded and not at all if hardware init failed or was not reached. -/
theorem amdxdna_probe_all_or_nothing (ids : List (amdxdna_device_id amdxdna_dev_info))
    (env : probe_env) (pdev : pci_dev) :
    ((amdxdna_probe ids env pdev).ret = 0 ↔ probe_all_ok ids env pdev) ∧
    ((amdxdna_probe ids env pdev).ret = 0 ↔
      first_failure (probe_steps ids env pdev) = none) ∧
    ((amdxdna_probe ids env pdev).ret ≠ 0 →
      first_failure (probe_steps ids env pdev) = some (amdxdna_probe ids env pdev).ret ∧
      drm_registered (amdxdna_probe ids env pdev).trace = false ∧
      count_ops_fini (amdxdna_probe ids env pdev).trace =
        (if hw_init_ok (amdxdna_probe ids env pdev).trace then 1 else 0)) ∧
    ((amdxdna_probe ids env pdev).ret = 0 →
      drm_registered (amdxdna_probe ids env pdev).trace = true ∧
      count_ops_fini (amdxdna_probe ids env pdev).trace = 0) := by
  obtain ⟨alloc, sysfs, reg⟩ := env
  by_cases herr : IS_ERR alloc = true
  · have hneg := to_int_PTR_ERR_neg alloc herr
    have hne : to_int (PTR_ERR alloc) ≠ 0 := by omega
    simp [amdxdna_probe, probe_all_ok, probe_steps, first_failure, herr, hne,
      drm_registered, count_ops_fini, hw_init_ok]
  · rcases hinfo : amdxdna_get_dev_info ids pdev with _ | info
    · simp [amdxdna_probe, probe_all_ok, probe_steps, first_failure, herr, hinfo, ENODEV,
        drm_registered, count_ops_fini, hw_init_ok]
    · rcases hinit : info.ops.init with _ | r
      · simp [amdxdna_probe, probe_all_ok, probe_steps, first_failure, herr, hinfo, hinit,
          EOPNOTSUPP, drm_registered, count_ops_fini, hw_init_ok]
      · cases hfini : info.ops.fini
        · simp [amdxdna_probe, probe_all_ok, probe_steps, first_failure, herr, hinfo, hinit,
            hfini, EOPNOTSUPP, drm_registered, count_ops_fini, hw_init_ok]
        · by_cases hr : r = 0
          · subst hr
            by_cases hs : sysfs = 0
            · subst hs
              by_cases hg : reg = 0
              · subst hg
                cases hd : info.ops.debugfs <;>
                  simp [amdxdna_probe, probe_all_ok, probe_steps, first_failure, herr, hinfo,
                    hinit, hfini, hd, drm_registered, count_ops_fini, hw_init_ok]
              · have hg2 : ¬ 0 = reg := fun h => hg h.symm
                simp [amdxdna_probe, probe_all_ok, probe_steps, first_failure, herr, hinfo,
                  hinit, hfini, hg, hg2, drm_registered, count_ops_fini, hw_init_ok]
            · simp [amdxdna_probe, probe_all_ok, probe_steps, first_failure, herr, hinfo,
                hinit, hfini, hs, drm_registered, count_ops_fini, hw_init_ok]
          · have hr2 : ¬ 0 = r := fun h => hr h.symm
            simp [amdxdna_probe, probe_all_ok, probe_steps, first_failure, herr, hinfo,
              hinit, hfini, hr, hr2, drm_registered, count_ops_fini, hw_init_ok]

/-! ## KMQ hardware context -/

/-- One buffer is allocated per compute unit. -/
theorem alloc_pdi_bos_length {σ : Type} (K : shim_abi) (dev : device_t σ) (slotidx : Nat)
    (f : xcl_bo_flags) (l : List cu_info_t) (heap : σ) :
    (alloc_pdi_bos K dev slotidx f l heap).1.length = l.length := by
  induction l generalizing heap with
  | nil => rfl
  | cons ci rest ih => simp [alloc_pdi_bos, ih]

/-- The loop of the constructor from index pre.length on: with the buffers
and entries of the units in pre in place, it appends the buffers of the
remaining units and fills their entries, in order. -/
theorem for_loop_kmq {σ : Type} (K : shim_abi) (dev : device_t σ) (slotidx : Nat)
    (f : xcl_bo_flags) (rest pre : List cu_info_t) (bos : List buffer_handle)
    (cfgs tl : List amdxdna_cu_config) (heap : σ)
    (hb : bos.length = pre.length) (hc : cfgs.length = pre.length)
    (ht : tl.length = rest.length) :
    for_loop (hw_ctx_kmq_body K dev slotidx f (pre ++ rest)) rest.length pre.length
        { m_pdi_bos := bos, cu_configs := cfgs ++ tl, heap := heap } =
      { m_pdi_bos := bos ++ (alloc_pdi_bos K dev slotidx f rest heap).1
        cu_configs := cfgs ++
          List.zipWith (cu_config_of K) (alloc_pdi_bos K dev slotidx f rest heap).1 rest
        heap := (alloc_pdi_bos K dev slotidx f rest heap).2 } := by
  induction rest generalizing pre bos cfgs tl heap with
  | nil =>
    cases tl with
    | nil => simp [for_loop, alloc_pdi_bos]
    | cons t tl => simp at ht
  | cons ci rest ih =>
    cases tl with
    | nil => simp at ht
    | cons t tl =>
      have hci : (pre ++ ci :: rest)[pre.length]? = some ci := by
        rw [List.getElem?_append_right (le_refl _)]; simp
      have hbo : ∀ b : buffer_handle, (bos ++ [b])[pre.length]? = some b := by
        intro b
        rw [← hb, List.getElem?_append_right (le_refl _)]; simp
      have hset : ∀ b b2 : buffer_handle, (bos ++ [b]).set pre.length b2 = bos ++ [b2] := by
        intro b b2
        rw [← hb]; simp
      have hcf : ∀ x : amdxdna_cu_config,
          (cfgs ++ t :: tl).set pre.length x = (cfgs ++ [x]) ++ tl := by
        intro x
        rw [← hc]; simp
      have hstep : hw_ctx_kmq_body K dev slotidx f (pre ++ ci :: rest) pre.length
          { m_pdi_bos := bos, cu_configs := cfgs ++ t :: tl, heap := heap } =
          { m_pdi_bos := bos ++
              [{ (hw_ctx_kmq_alloc_bo K dev slotidx heap ci.m_pdi.length f).1 with
                  data := ci.m_pdi
                  synced := (hw_ctx_kmq_alloc_bo K dev slotidx heap ci.m_pdi.length f).1.size }]
            cu_configs := (cfgs ++
              [cu_config_of K (hw_ctx_kmq_alloc_bo K dev slotidx heap ci.m_pdi.length f).1 ci])
              ++ tl
            heap := (hw_ctx_kmq_alloc_bo K dev slotidx heap ci.m_pdi.length f).2 } := by
        simp only [hw_ctx_kmq_body, hci, hbo, hset, hcf, cu_config_of]
      have hpre : pre ++ ci :: rest = (pre ++ [ci]) ++ rest := by simp
      have hlen : pre.length + 1 = (pre ++ [ci]).length := by simp
      simp only [List.length_cons, for_loop, hstep]
      rw [hpre, hlen, ih (pre ++ [ci]) _ _ tl _ (by simp [hb]) (by simp [hc])
        (by simpa using ht)]
      simp [alloc_pdi_bos, cu_config_of]

/-- The constructor in closed form: the buffers are those of one allocation
per compute unit in order, the entries pair each buffer with its unit. -/
theorem hw_ctx_kmq_closed {σ : Type} (K : shim_abi) (dev : device_t σ) (slotidx : Nat)
    (cu_info : List cu_info_t) (heap : σ) :
    (hw_ctx_kmq K dev slotidx cu_info heap).m_pdi_bos =
      (alloc_pdi_bos K dev slotidx (pdi_bo_flags K) cu_info heap).1 ∧
    (hw_ctx_kmq K dev slotidx cu_info heap).heap =
      (alloc_pdi_bos K dev slotidx (pdi_bo_flags K) cu_info heap).2 ∧
    (hw_ctx_kmq K dev slotidx cu_info heap).arg.param_val.cu_configs =
      List.zipWith (cu_config_of K)
        (alloc_pdi_bos K dev slotidx (pdi_bo_flags K) cu_info heap).1 cu_info := by
  have h := for_loop_kmq K dev slotidx (pdi_bo_flags K) cu_info [] [] []
    (List.replicate cu_info.length { xdna_addr := 0, cu_func := 0 }) heap rfl rfl (by simp)
  simp only [List.nil_append, List.length_nil] at h
  simp only [hw_ctx_kmq]
  refine ⟨?_, ?_, ?_⟩
  · exact congrArg kmq_state.m_pdi_bos h
  · exact congrArg kmq_state.heap h
  · exact congrArg kmq_state.cu_configs h

/-- The field num_cus of the request is the number of compute units as a
field of num_cus_bits bits holds it. -/
theorem hw_ctx_kmq_num_cus {σ : Type} (K : shim_abi) (dev : device_t σ) (slotidx : Nat)
    (cu_info : List cu_info_t) (heap : σ) :
    (hw_ctx_kmq K dev slotidx cu_info heap).arg.param_val.num_cus =
      cu_info.length % 2 ^ K.num_cus_bits := rfl

/-- C9, as stated, fails. With the 16-bit num_cus and the one-byte cu_func
of the message layout, an image of 65536 compute units is sent with num_cus
0, not 65536, and a compute unit whose function selector is 300 is sent with
cu_func 44, not 300. -/
theorem hw_ctx_kmq_fields_narrowed :
    many_cu_info.length = 65536 ∧
    (hw_ctx_kmq sample_abi bump_device 3 many_cu_info 4096).arg.param_val.num_cus = 0 ∧
    (hw_ctx_kmq sample_abi bump_device 3 many_cu_info 4096).arg.param_val.num_cus ≠
      many_cu_info.length ∧
    wide_func_cu_info.map cu_info_t.m_func = [300] ∧
    (hw_ctx_kmq sample_abi bump_device 3 wide_func_cu_info 4096).arg.param_val.cu_configs =
      [{ xdna_addr := 4096, cu_func := 44 }] ∧
    (hw_ctx_kmq sample_abi bump_device 3 wide_func_cu_info 4096).arg.param_val.cu_configs.map
      amdxdna_cu_config.cu_func ≠ wide_func_cu_info.map cu_info_t.m_func := by
  have hlen : many_cu_info.length = 65536 := List.length_replicate _ _
  have hnum : (hw_ctx_kmq sample_abi bump_device 3 many_cu_info 4096).arg.param_val.num_cus
      = 0 := by
    rw [hw_ctx_kmq_num_cus, hlen]; rfl
  refine ⟨hlen, hnum, ?_, by decide, by decide, by decide⟩
  rw [hnum, hlen]; decide

/-- C9 amended: for every list of n compute-unit infos, the configuration
request built by the constructor is sent for the slot index of the context
with parameter type DRM_AMDXDNA_HWCTX_CONFIG_CU; its payload size is the
header size plus n times the entry size; exactly n load-image buffers are
allocated, one per compute unit in order; there are n entries, and entry i
holds the device address of the i-th load-image buffer and the function
selector of the i-th compute unit reduced modulo 2 to the width of cu_func,
which is the selector itself whenever it is within the range of the field.
The field num_cus holds n reduced modulo 2 to the width of num_cus, which is
n itself whenever n is within the range of the field. -/
theorem hw_ctx_kmq_config {σ : Type} (K : shim_abi) (dev : device_t σ) (slotidx : Nat)
    (cu_info : List cu_info_t) (heap : σ) :
    (hw_ctx_kmq K dev slotidx cu_info heap).arg.handle = slotidx ∧
    (hw_ctx_kmq K dev slotidx cu_info heap).arg.param_type = K.DRM_AMDXDNA_HWCTX_CONFIG_CU ∧
    (hw_ctx_kmq K dev slotidx cu_info heap).arg.param_val_size =
      K.sizeof_param_config_cu + cu_info.length * K.sizeof_cu_config ∧
    (hw_ctx_kmq K dev slotidx cu_info heap).arg.param_val.num_cus =
      cu_info.length % 2 ^ K.num_cus_bits ∧
    (cu_info.length < 2 ^ K.num_cus_bits →
      (hw_ctx_kmq K dev slotidx cu_info heap).arg.param_val.num_cus = cu_info.length) ∧
    (hw_ctx_kmq K dev slotidx cu_info heap).m_pdi_bos.length = cu_info.length ∧
    ((hw_ctx_kmq K dev slotidx cu_info heap).m_pdi_bos,
        (hw_ctx_kmq K dev slotidx cu_info heap).heap) =
      alloc_pdi_bos K dev slotidx (pdi_bo_flags K) cu_info heap ∧
    (hw_ctx_kmq K dev slotidx cu_info heap).arg.param_val.cu_configs.length =
      cu_info.length ∧
    (∀ (i : Nat) (hi : i < cu_info.length)
      (hb : i < (hw_ctx_kmq K dev slotidx cu_info heap).m_pdi_bos.length)
      (hc : i < (hw_ctx_kmq K dev slotidx cu_info heap).arg.param_val.cu_configs.length),
      ((hw_ctx_kmq K dev slotidx cu_info heap).arg.param_val.cu_configs.get ⟨i, hc⟩).xdna_addr =
        ((hw_ctx_kmq K dev slotidx cu_info heap).m_pdi_bos.get ⟨i, hb⟩).paddr ∧
      ((hw_ctx_kmq K dev slotidx cu_info heap).arg.param_val.cu_configs.get ⟨i, hc⟩).cu_func =
        (cu_info.get ⟨i, hi⟩).m_func % 2 ^ K.cu_func_bits ∧
      ((cu_info.get ⟨i, hi⟩).m_func < 2 ^ K.cu_func_bits →
        ((hw_ctx_kmq K dev slotidx cu_info heap).arg.param_val.cu_configs.get ⟨i, hc⟩).cu_func =
          (cu_info.get ⟨i, hi⟩).m_func) ∧
      ((hw_ctx_kmq K dev slotidx cu_info heap).m_pdi_bos.get ⟨i, hb⟩).data =
        (cu_info.get ⟨i, hi⟩).m_pdi) := by
  obtain ⟨h1, h2, h3⟩ := hw_ctx_kmq_closed K dev slotidx cu_info heap
  have hlen := alloc_pdi_bos_length K dev slotidx (pdi_bo_flags K) cu_info heap
  have hdata : ∀ (l : List cu_info_t) (hp : σ) (i : Nat) (hi : i < l.length)
      (hb : i < (alloc_pdi_bos K dev slotidx (pdi_bo_flags K) l hp).1.length),
      ((alloc_pdi_bos K dev slotidx (pdi_bo_flags K) l hp).1.get ⟨i, hb⟩).data =
        (l.get ⟨i, hi⟩).m_pdi := by
    intro l
    induction l with
    | nil => intro hp i hi; simp at hi
    | cons ci rest ih =>
      intro hp i hi hb
      cases i with
      | zero => simp [alloc_pdi_bos]
      | succ j =>
        simp only [alloc_pdi_bos, List.get_eq_getElem, List.getElem_cons_succ, List.length_cons]
        have := ih (hw_ctx_kmq_alloc_bo K dev slotidx hp ci.m_pdi.length (pdi_bo_flags K)).2 j
          (by simpa using hi) (by simpa [alloc_pdi_bos] using hb)
        simpa using this
  refine ⟨rfl, rfl, rfl, rfl, ?_, ?_, ?_, ?_, ?_⟩
  · intro hfit
    simp only [hw_ctx_kmq]
    exact Nat.mod_eq_of_lt hfit
  · rw [h1, hlen]
  · rw [h1, h2]
  · rw [h3, List.length_zipWith, hlen, min_self]
  · intro i hi hb hc
    have hz : (hw_ctx_kmq K dev slotidx cu_info heap).arg.param_val.cu_configs.get ⟨i, hc⟩ =
        cu_config_of K ((hw_ctx_kmq K dev slotidx cu_info heap).m_pdi_bos.get ⟨i, hb⟩)
          (cu_info.get ⟨i, hi⟩) := by
      simp only [List.get_eq_getElem, h3, h1, List.getElem_zipWith]
    refine ⟨by rw [hz]; rfl, by rw [hz]; rfl, ?_, ?_⟩
    · intro hfit
      rw [hz]
      exact Nat.mod_eq_of_lt hfit
    have hb2 : i < (alloc_pdi_bos K dev slotidx (pdi_bo_flags K) cu_info heap).1.length := by
      rw [hlen]; exact hi
    have := hdata cu_info heap i hi hb2
    simpa only [List.get_eq_getElem, h1] using this

/-- Witness of the amended C9: two compute units on a bump allocator
starting at 0x1000, context slot 3; their number and their function
selectors are within the range of the fields. -/
theorem hw_ctx_kmq_config_witness :
    sample_cu_info.length < 2 ^ sample_abi.num_cus_bits ∧
    (∀ ci ∈ sample_cu_info, ci.m_func < 2 ^ sample_abi.cu_func_bits) ∧
    (hw_ctx_kmq sample_abi bump_device 3 sample_cu_info 4096).arg =
      { handle := 3, param_type := 0,
        param_val := { num_cus := 2,
                       cu_configs := [{ xdna_addr := 4096, cu_func := 0 },
                                      { xdna_addr := 4099, cu_func := 1 }] },
        param_val_size := 40 } ∧
    (hw_ctx_kmq sample_abi bump_device 3 sample_cu_info 4096).arg.param_val.num_cus =
      sample_cu_info.length :=
  ⟨by decide, by decide, by decide,
    (hw_ctx_kmq_config sample_abi bump_device 3 sample_cu_info 4096).2.2.2.2.1 (by decide)⟩

/-- Witness of C6: a probe of an NPU1 whose DRM registration fails with -22
returns -22 after undoing sysfs init and hardware init. -/
theorem amdxdna_probe_all_or_nothing_witness :
    (amdxdna_probe sample_ids register_fail_env { device := 0x1502, revision := 0 }).ret = -22 ∧
    (amdxdna_probe sample_ids register_fail_env { device := 0x1502, revision := 0 }).trace =
      [Call.ops_init 0, Call.amdxdna_sysfs_init 0, Call.drm_dev_register (-22),
        Call.amdxdna_sysfs_fini, Call.ops_fini] ∧
    first_failure (probe_steps sample_ids register_fail_env { device := 0x1502, revision := 0 })
      = some (amdxdna_probe sample_ids register_fail_env
          { device := 0x1502, revision := 0 }).ret :=
  ⟨by decide, by decide,
    ((amdxdna_probe_all_or_nothing sample_ids register_fail_env
      { device := 0x1502, revision := 0 }).2.2.1 (by decide)).1⟩

end Amdxdna
